import Mathlib

/-!
Shallow embedding of the revision-session flow controller
(`backend/core/revision_agents.py`, class `LangGraphRevisionAgent`).

The external collaborators are modelled at their interface boundary:
* the generation/classification service is a finite list of
  `Option String` replies consumed in call order (`some r` = the service
  returned text `r`, `none` = the call raised an exception);
* the content provider's sub-topic list is a `List Subtopic` parameter;
* the session store is modelled by the pure record produced by
  `_save_session_state` and consumed by `_load_session_state`.

Python floats carried in `concept_scores` are modelled as rationals;
Python `None`-able strings as `Option String` with Python truthiness
(`none` and `""` are falsy).  Prompt texts are inputs to the external
service only, so they do not appear: the service's reply is universally
quantified through the reply list.
-/

namespace RevisionAgent

/-- One sub-topic as returned by `mongodb.get_topic_subtopics`. -/
structure Subtopic where
  subtopic_title : String
  content : String
deriving DecidableEq, Repr

/-- The generation service's pending replies, consumed one per call. -/
abbrev Replies := List (Option String)

/-- Consume the next service reply; an exhausted list behaves as a
service failure (exception). -/
def takeReply : Replies → Option String × Replies
  | [] => (none, [])
  | r :: rs => (r, rs)

/-- `_generate_response`: returns the service text, or the fixed fallback
sentence when the call raises. -/
def generate_response (rs : Replies) : String × Replies :=
  match takeReply rs with
  | (some r, rs') => (r, rs')
  | (none, rs') => ("I'm having trouble responding right now. Let's continue.", rs')

/-- Python truthiness of an optional string: `None` and `""` are falsy. -/
def strTruthy : Option String → Bool
  | none => false
  | some s => s ≠ ""

/-- Helper for `pyWords`: scan the characters, `cur` holding the
current word reversed. -/
def pyWordsAux : List Char → List Char → List (List Char)
  | [], cur => if cur.isEmpty then [] else [cur.reverse]
  | c :: rest, cur =>
      if c.isWhitespace then
        if cur.isEmpty then pyWordsAux rest [] else cur.reverse :: pyWordsAux rest []
      else pyWordsAux rest (c :: cur)

/-- Python `str.split()` with no argument: split on whitespace, dropping
empty pieces. -/
def pyWords (s : String) : List (List Char) :=
  pyWordsAux s.data []

/-- `charsStartsWith n h`: is `n` a prefix of `h`? -/
def charsStartsWith : List Char → List Char → Bool
  | [], _ => true
  | _ :: _, [] => false
  | c :: cs, d :: ds => c = d && charsStartsWith cs ds

/-- `charsOccursIn n h`: does `n` occur contiguously inside `h`? -/
def charsOccursIn : List Char → List Char → Bool
  | n, [] => n.isEmpty
  | n, d :: rest => charsStartsWith n (d :: rest) || charsOccursIn n rest

/-- Substring containment, Python's `needle in hay`. -/
def strContains (hay needle : String) : Bool :=
  charsOccursIn needle.data hay.data

/-- Python `str.lower()` (ASCII range, which covers every indicator the
classifier scans for). -/
def lowerChars (cs : List Char) : List Char :=
  cs.map Char.toLower

/-! ## Answer-score parsing (`_score_answer`)

The Python extracts the first match of the regex `0\.\d+|1\.0|0|1` from
the service reply and converts it with `float`; no match (or an
exception) yields `0.5`.  `re.search` returns the leftmost match, and at
a given position the alternatives are tried left to right with `\d+`
greedy, which the two functions below reproduce over the character
list. -/

/-- ASCII digit test (the regex's `\d` over the service's replies). -/
def isAsciiDigit (c : Char) : Bool :=
  48 ≤ c.toNat && c.toNat ≤ 57

/-- Decimal value of an ASCII digit string, most significant first. -/
def natFromDigits (ds : List Char) : Nat :=
  ds.foldl (fun a c => 10 * a + (c.toNat - 48)) 0

/-- Try the regex alternatives `0\.\d+`, `1\.0`, `0`, `1` (in that
order, `\d+` greedy) at the head of the character list, returning the
numeric value of the matched token. -/
def matchValueAt : List Char → Option ℚ
  | '0' :: '.' :: c :: rest =>
      if isAsciiDigit c then
        let ds := (c :: rest).takeWhile isAsciiDigit
        some ((natFromDigits ds : ℚ) / (10 : ℚ) ^ ds.length)
      else
        some 0
  | '0' :: _ => some 0
  | '1' :: '.' :: '0' :: _ => some 1
  | '1' :: _ => some 1
  | _ => none

/-- Leftmost regex match over the reply, as `re.search` does. -/
def searchScore : List Char → Option ℚ
  | [] => none
  | c :: rest =>
      match matchValueAt (c :: rest) with
      | some v => some v
      | none => searchScore rest

/-- Value extracted from one service reply, with the `0.5` fallback for
an unparseable reply. -/
def parse_score (r : String) : ℚ :=
  (searchScore r.data).getD (1 / 2)

/-- `_score_answer`: one service call; exception or unparseable reply
falls back to `0.5`.  Pure in the model, hence deterministic and
side-effect-free. -/
def score_answer (rs : Replies) : ℚ × Replies :=
  match takeReply rs with
  | (some r, rs') => (parse_score r, rs')
  | (none, rs') => (1 / 2, rs')

/-! ## Session state -/

/-- `RevisionState` (the LangGraph `TypedDict`); `messages` keeps the
appended message texts. -/
structure RevisionState where
  session_id : String
  student_id : String
  topic : String
  current_subtopic_index : Nat
  current_message_step : Nat
  subtopics : List Subtopic
  concepts_learned : List String
  concept_scores : List ℚ
  total_interactions : Nat
  user_input : Option String
  last_ai_response : Option String
  waiting_for_answer : Bool
  current_question : Option String
  session_complete : Bool
  stage : String
  messages : List String
deriving DecidableEq, Repr

/-- `_is_user_asking_question`: empty input is never a question; while
waiting for an answer a reply of at most 5 words is treated as an
answer; otherwise scan for the question-indicator substrings in the
lowercased input. -/
def question_indicators : List String :=
  ["what", "how", "why", "when", "where", "can you", "could you", "explain", "?"]

def is_user_asking_question (user_input : Option String) (s : RevisionState) : Bool :=
  match user_input with
  | none => false
  | some u =>
      if u = "" then false
      else if s.waiting_for_answer && decide ((pyWords u).length ≤ 5) then false
      else question_indicators.any (fun ind => charsOccursIn ind.data (lowerChars u.data))

/-! ## Graph node functions

Each node receives the state and the pending service replies; nodes
that call `_generate_response` or `_score_answer` consume one reply.
`_evaluate_answer` and `_give_feedback` index `subtopics` unguarded
after their early-return checks, so they return `Except` with the
Python `IndexError` as the error case.  Prompts built from the state
are handed to the external service only and so do not appear. -/

/-- `_initialize_session`. -/
def initialize_session (s : RevisionState) : RevisionState :=
  { s with total_interactions := 0, stage := "intro" }

/-- `_topic_introduction`: one generation call, count the interaction. -/
def topic_introduction (s : RevisionState) (rs : Replies) : RevisionState × Replies :=
  let g := generate_response rs
  ({ s with last_ai_response := some g.1,
            total_interactions := s.total_interactions + 1,
            messages := s.messages ++ [g.1] }, g.2)

/-- `_start_concept_explanation`: out-of-range index completes the
session; otherwise step 1 of the current concept. -/
def start_concept_explanation (s : RevisionState) (rs : Replies) : RevisionState × Replies :=
  if s.current_subtopic_index ≥ s.subtopics.length then
    ({ s with session_complete := true }, rs)
  else
    let g := generate_response rs
    ({ s with current_message_step := 1,
              stage := "learning",
              last_ai_response := some g.1,
              total_interactions := s.total_interactions + 1,
              messages := s.messages ++ [g.1] }, g.2)

/-- `_continue_explanation`: increment the step; steps `≤ 3` produce the
next fragment, beyond that only the stage moves to `question`. -/
def continue_explanation (s : RevisionState) (rs : Replies) : RevisionState × Replies :=
  if s.current_subtopic_index ≥ s.subtopics.length then
    ({ s with session_complete := true }, rs)
  else
    let step := s.current_message_step + 1
    if step ≤ 3 then
      let g := generate_response rs
      ({ s with current_message_step := step,
                last_ai_response := some g.1,
                total_interactions := s.total_interactions + 1,
                messages := s.messages ++ [g.1] }, g.2)
    else
      ({ s with current_message_step := step, stage := "question" }, rs)

/-- `_ask_check_question`: generate a check question, record it and set
`waiting_for_answer`. -/
def ask_check_question (s : RevisionState) (rs : Replies) : RevisionState × Replies :=
  if s.current_subtopic_index ≥ s.subtopics.length then
    ({ s with session_complete := true }, rs)
  else
    let g := generate_response rs
    ({ s with last_ai_response := some g.1,
              current_question := some g.1,
              waiting_for_answer := true,
              stage := "question",
              total_interactions := s.total_interactions + 1,
              messages := s.messages ++ [g.1] }, g.2)

/-- `_evaluate_answer`: no-op without a pending answer or question;
otherwise score the answer (`_score_answer`), append the score, clear
`waiting_for_answer` and move to `feedback`.  `current_question` is not
cleared here. -/
def evaluate_answer (s : RevisionState) (rs : Replies) :
    Except String (RevisionState × Replies) :=
  if ¬ (strTruthy s.user_input ∧ strTruthy s.current_question) then
    .ok (s, rs)
  else
    match s.subtopics.get? s.current_subtopic_index with
    | none => .error "IndexError"
    | some _ =>
        let p := score_answer rs
        .ok ({ s with concept_scores := s.concept_scores ++ [p.1],
                      waiting_for_answer := false,
                      stage := "feedback",
                      messages := s.messages ++ [s.user_input.getD ""] }, p.2)

/-- `_give_feedback`: no-op when no score has been recorded; otherwise
generate feedback on the last score and mark the concept learned when
the score reaches `0.6` and the title is not yet recorded. -/
def give_feedback (s : RevisionState) (rs : Replies) :
    Except String (RevisionState × Replies) :=
  match s.concept_scores.getLast? with
  | none => .ok (s, rs)
  | some current_score =>
      match s.subtopics.get? s.current_subtopic_index with
      | none => .error "IndexError"
      | some st =>
          let g := generate_response rs
          let s1 := { s with last_ai_response := some g.1,
                             total_interactions := s.total_interactions + 1,
                             messages := s.messages ++ [g.1] }
          let s2 :=
            if current_score ≥ 3 / 5 ∧ st.subtopic_title ∉ s1.concepts_learned then
              { s1 with concepts_learned := s1.concepts_learned ++ [st.subtopic_title] }
            else s1
          .ok (s2, g.2)

/-- `_move_to_next_concept`: advance the cursor, reset the step, clear
the pending question and input; completing when the index reaches the
sub-topic count.  `waiting_for_answer` is untouched. -/
def move_to_next_concept (s : RevisionState) : RevisionState :=
  let i := s.current_subtopic_index + 1
  let base := { s with current_subtopic_index := i,
                       current_message_step := 0,
                       current_question := none,
                       user_input := none }
  if i ≥ s.subtopics.length then
    { base with session_complete := true, stage := "complete" }
  else
    { base with stage := "learning" }

/-- `_handle_user_question`: answer the side question from retrieved
content (external), then set the stage to `learning` unconditionally.
The user text is present on every reachable path (the router required
it truthy), logged here via `getD`. -/
def handle_user_question (s : RevisionState) (rs : Replies) : RevisionState × Replies :=
  let g := generate_response rs
  ({ s with last_ai_response := some g.1,
            total_interactions := s.total_interactions + 1,
            messages := s.messages ++ [s.user_input.getD "", g.1],
            stage := "learning" }, g.2)

/-- `_session_summary`: the summary statistics feed only the prompt of
the generation call; the state is marked complete. -/
def session_summary (s : RevisionState) (rs : Replies) : RevisionState × Replies :=
  let g := generate_response rs
  ({ s with last_ai_response := some g.1,
            session_complete := true,
            stage := "complete",
            total_interactions := s.total_interactions + 1,
            messages := s.messages ++ [g.1] }, g.2)

/-! ## Routing functions -/

/-- `_route_after_intro`. -/
def route_after_intro (s : RevisionState) : String :=
  if s.subtopics.length = 0 then "complete" else "start_concept"

/-- `_route_explanation`. -/
def route_explanation (s : RevisionState) : String :=
  if s.current_message_step < 3 then "continue" else "question"

/-- `_route_after_feedback`; Python's `len - 1` on an empty list is
`-1` and the comparison is then always true, which `Nat` truncated
subtraction reproduces. -/
def route_after_feedback (s : RevisionState) : String :=
  if s.current_subtopic_index ≥ s.subtopics.length - 1 then "complete" else "next_concept"

/-- `_route_next_concept`. -/
def route_next_concept (s : RevisionState) : String :=
  if s.session_complete then "complete" else "start_concept"

/-- `_route_after_user_question`. -/
def route_after_user_question (s : RevisionState) : String :=
  if s.waiting_for_answer then "ask_question"
  else if s.current_message_step < 3 then "continue_explanation"
  else "next_concept"

/-! ## Graph execution (`_build_graph` + `graph.ainvoke`)

The compiled LangGraph has no checkpointer and no interrupt, so
`ainvoke` follows the edges from `START` until `END` in one call.
`handle_user_question` has no incoming edge and is therefore not
reachable from `START`; it is entered only directly by
`handle_user_input`.  The runner carries fuel because the edge relation
alone does not exhibit the termination measure; `start_revision_session`
supplies fuel amply above the longest possible run. -/

/-- The graph nodes reachable from `START`. -/
inductive GNode
  | init | intro | startConcept | continueExp | askQ
  | evalAns | feedback | nextConcept | summary
deriving DecidableEq, Repr

/-- One superstep: run the node, then follow its (conditional) edge.
`none` as next node means `END`. -/
def graphStep (n : GNode) (s : RevisionState) (rs : Replies) :
    Except String (Option GNode × RevisionState × Replies) :=
  match n with
  | .init => .ok (some .intro, initialize_session s, rs)
  | .intro =>
      let p := topic_introduction s rs
      .ok (some (if route_after_intro p.1 = "complete" then .summary else .startConcept), p.1, p.2)
  | .startConcept =>
      let p := start_concept_explanation s rs
      .ok (some (if route_explanation p.1 = "continue" then .continueExp else .askQ), p.1, p.2)
  | .continueExp =>
      let p := continue_explanation s rs
      .ok (some (if route_explanation p.1 = "continue" then .continueExp else .askQ), p.1, p.2)
  | .askQ =>
      let p := ask_check_question s rs
      .ok (some .evalAns, p.1, p.2)
  | .evalAns =>
      match evaluate_answer s rs with
      | .error e => .error e
      | .ok p => .ok (some .feedback, p.1, p.2)
  | .feedback =>
      match give_feedback s rs with
      | .error e => .error e
      | .ok p =>
          .ok (some (if route_after_feedback p.1 = "complete" then .summary else .nextConcept), p.1, p.2)
  | .nextConcept =>
      let s' := move_to_next_concept s
      .ok (some (if route_next_concept s' = "complete" then .summary else .startConcept), s', rs)
  | .summary =>
      let p := session_summary s rs
      .ok (none, p.1, p.2)

/-- Follow edges until `END` (or the fuel runs out, reported as an
error; the supplied fuel always suffices for runs from `START`). -/
def runGraph : Nat → GNode → RevisionState → Replies → Except String (RevisionState × Replies)
  | 0, _, _, _ => .error "out of fuel"
  | fuel + 1, n, s, rs =>
      match graphStep n s rs with
      | .error e => .error e
      | .ok (none, s', rs') => .ok (s', rs')
      | .ok (some n', s', rs') => runGraph fuel n' s' rs'

/-! ## Controller entry points -/

/-- The result dictionary both entry points build for the caller. -/
structure TurnResult where
  response : Option String
  topic : String
  session_id : String
  conversation_count : Nat
  is_session_complete : Bool
  current_stage : String
  sources : List String
deriving DecidableEq, Repr

/-- Build the result dictionary from the final state. -/
def mkResult (session_id : String) (s : RevisionState) : TurnResult :=
  { response := s.last_ai_response
    topic := s.topic
    session_id := session_id
    conversation_count := s.total_interactions
    is_session_complete := s.session_complete
    current_stage := s.stage
    sources := if s.subtopics ≠ [] then ["3." ++ toString (s.current_subtopic_index + 1)] else [] }

/-- Outcome of `start_revision_session`: the zero-sub-topic early return
(the literal dictionary the Python builds, with no state created or
persisted), or the normal run (result, final state, remaining replies). -/
inductive StartOutcome
  | noContent (response : String) (is_session_complete : Bool) (current_stage : String)
  | ok (result : TurnResult) (finalState : RevisionState) (remaining : Replies)
deriving DecidableEq, Repr

/-- `start_revision_session`: with no sub-topics return the literal
no-content dictionary; otherwise build the initial state and run the
graph from `START` to `END`, then build the result dictionary. -/
def start_revision_session (topic student_id session_id : String)
    (subtopics : List Subtopic) (rs : Replies) : Except String StartOutcome :=
  if subtopics = [] then
    .ok (.noContent "Sorry, no content found for this topic." true "error")
  else
    let s0 : RevisionState :=
      { session_id := session_id
        student_id := student_id
        topic := topic
        current_subtopic_index := 0
        current_message_step := 0
        subtopics := subtopics
        concepts_learned := []
        concept_scores := []
        total_interactions := 0
        user_input := none
        last_ai_response := none
        waiting_for_answer := false
        current_question := none
        session_complete := false
        stage := "intro"
        messages := [] }
    match runGraph (20 + 10 * subtopics.length) .init s0 rs with
    | .error e => .error e
    | .ok p => .ok (.ok (mkResult session_id p.1) p.1 p.2)

/-! ## Persistence (`_save_session_state` / `_load_session_state`) -/

/-- The persisted record, exactly the keys `_save_session_state`
writes (`updated_at` modelled as an abstract clock value supplied by
the caller).  `last_ai_response` is not persisted, so
`_load_session_state` reads its default `""`. -/
structure SessionRecord where
  session_id : String
  student_id : String
  topic : String
  current_subtopic_index : Nat
  current_message_step : Nat
  concepts_learned : List String
  concept_scores : List ℚ
  total_interactions : Nat
  waiting_for_answer : Bool
  current_question : Option String
  session_complete : Bool
  stage : String
  updated_at : Nat
deriving DecidableEq, Repr

/-- `_save_session_state`. -/
def save_session_state (s : RevisionState) (now : Nat) : SessionRecord :=
  { session_id := s.session_id
    student_id := s.student_id
    topic := s.topic
    current_subtopic_index := s.current_subtopic_index
    current_message_step := s.current_message_step
    concepts_learned := s.concepts_learned
    concept_scores := s.concept_scores
    total_interactions := s.total_interactions
    waiting_for_answer := s.waiting_for_answer
    current_question := s.current_question
    session_complete := s.session_complete
    stage := s.stage
    updated_at := now }

/-- `_load_session_state`: rebuild the state from the record, with the
sub-topics re-fetched from the content provider (a parameter here) and
the incoming user text installed; `last_ai_response` gets the `.get`
default `""` and `messages` restarts empty. -/
def load_session_state (data : SessionRecord) (user_input : Option String)
    (subtopics : List Subtopic) : RevisionState :=
  { session_id := data.session_id
    student_id := data.student_id
    topic := data.topic
    current_subtopic_index := data.current_subtopic_index
    current_message_step := data.current_message_step
    subtopics := subtopics
    concepts_learned := data.concepts_learned
    concept_scores := data.concept_scores
    total_interactions := data.total_interactions
    user_input := user_input
    last_ai_response := some ""
    waiting_for_answer := data.waiting_for_answer
    current_question := data.current_question
    session_complete := data.session_complete
    stage := data.stage
    messages := [] }

/-! ## `handle_user_input` -/

/-- The branch `handle_user_input` selects for a turn, in the order of
its `if`/`elif`/`else`. -/
inductive TurnRoute
  | userQuestion
  | answerEval
  | continueFlow
deriving DecidableEq, Repr

/-- The router of `handle_user_input`. -/
def handleRoute (user_query : Option String) (s : RevisionState) : TurnRoute :=
  if is_user_asking_question user_query s then .userQuestion
  else if s.waiting_for_answer && strTruthy s.current_question then .answerEval
  else .continueFlow

/-- Outcome of `handle_user_input`: the session-not-found dictionary, or
the normal result with the final state and remaining replies. -/
inductive HandleOutcome
  | notFound
  | ok (result : TurnResult) (finalState : RevisionState) (remaining : Replies)
deriving DecidableEq, Repr

/-- `handle_user_input`: load the state (the store's answer for the id
is the `session_data` parameter, the re-fetched sub-topics the
`subtopics` parameter), route the turn, execute the selected node
sequence, and build the result dictionary from the final state. -/
def handle_user_input (session_id : String) (session_data : Option SessionRecord)
    (subtopics : List Subtopic) (user_query : Option String) (rs : Replies) :
    Except String HandleOutcome :=
  match session_data with
  | none => .ok .notFound
  | some data =>
      let state := load_session_state data user_query subtopics
      match handleRoute user_query state with
      | .userQuestion =>
          let state1 := { state with stage := "user_question" }
          let p := handle_user_question state1 rs
          .ok (.ok (mkResult session_id p.1) p.1 p.2)
      | .answerEval =>
          let state1 := { state with user_input := user_query }
          match evaluate_answer state1 rs with
          | .error e => .error e
          | .ok p1 =>
              match give_feedback p1.1 p1.2 with
              | .error e => .error e
              | .ok p2 =>
                  if p2.1.current_subtopic_index < p2.1.subtopics.length - 1 then
                    let s3 := move_to_next_concept p2.1
                    if ¬ s3.session_complete then
                      let p4 := start_concept_explanation s3 p2.2
                      .ok (.ok (mkResult session_id p4.1) p4.1 p4.2)
                    else
                      .ok (.ok (mkResult session_id s3) s3 p2.2)
                  else
                    let s3 := { p2.1 with session_complete := true }
                    let p4 := session_summary s3 p2.2
                    .ok (.ok (mkResult session_id p4.1) p4.1 p4.2)
      | .continueFlow =>
          if state.stage = "learning" then
            let p1 := continue_explanation state rs
            if p1.1.stage = "question" then
              let p2 := ask_check_question p1.1 p1.2
              .ok (.ok (mkResult session_id p2.1) p2.1 p2.2)
            else
              .ok (.ok (mkResult session_id p1.1) p1.1 p1.2)
          else
            let p1 := continue_explanation state rs
            .ok (.ok (mkResult session_id p1.1) p1.1 p1.2)

/-! ## Projections used to state results about `Except` outcomes -/

/-- Final state of a successful `handle_user_input` turn. -/
def okState : Except String HandleOutcome → Option RevisionState
  | .ok (.ok _ s _) => some s
  | _ => none

/-- Result dictionary of a successful `handle_user_input` turn. -/
def okResult : Except String HandleOutcome → Option TurnResult
  | .ok (.ok r _ _) => some r
  | _ => none

/-- State component of a node returning `Except`. -/
def evalState : Except String (RevisionState × Replies) → Option RevisionState
  | .ok (s, _) => some s
  | _ => none

/-- Result dictionary of a normal `start_revision_session` run. -/
def startResult : Except String StartOutcome → Option TurnResult
  | .ok (.ok r _ _) => some r
  | _ => none

/-- The no-content early return of `start_revision_session`, projected to
its completion flag and stage. -/
def startNoContent : Except String StartOutcome → Option (Bool × String)
  | .ok (.noContent _ c g) => some (c, g)
  | _ => none

/-! ## Score-parsing bounds (claim C8) -/

theorem natFromDigits_aux (ds : List Char) (a : Nat) (h : ∀ c ∈ ds, isAsciiDigit c = true) :
    ds.foldl (fun a c => 10 * a + (c.toNat - 48)) a < 10 ^ ds.length * (a + 1) := by
  induction ds generalizing a with
  | nil => simp only [List.foldl_nil, List.length_nil, pow_zero, one_mul]; omega
  | cons c tl ih =>
      have hc : isAsciiDigit c = true := h c (by simp)
      have hd : c.toNat - 48 ≤ 9 := by
        simp only [isAsciiDigit, decide_eq_true_eq, Bool.and_eq_true] at hc
        omega
      have htl : ∀ x ∈ tl, isAsciiDigit x = true := fun x hx => h x (by simp [hx])
      calc List.foldl (fun a c => 10 * a + (c.toNat - 48)) (10 * a + (c.toNat - 48)) tl
          < 10 ^ tl.length * (10 * a + (c.toNat - 48) + 1) := ih _ htl
        _ ≤ 10 ^ tl.length * (10 * (a + 1)) := by
            apply Nat.mul_le_mul_left
            omega
        _ = 10 ^ (c :: tl).length * (a + 1) := by
            simp [List.length_cons, pow_succ]
            ring

theorem natFromDigits_lt (ds : List Char) (h : ∀ c ∈ ds, isAsciiDigit c = true) :
    natFromDigits ds < 10 ^ ds.length := by
  have := natFromDigits_aux ds 0 h
  simpa [natFromDigits] using this

theorem matchValueAt_bounds (cs : List Char) (v : ℚ) (h : matchValueAt cs = some v) :
    0 ≤ v ∧ v ≤ 1 := by
  unfold matchValueAt at h
  split at h
  case _ c rest =>
    split at h
    case isTrue hdig =>
      simp only [Option.some.injEq] at h
      subst h
      set ds := (c :: rest).takeWhile isAsciiDigit with hds
      have hall : ∀ x ∈ ds, isAsciiDigit x = true := fun x hx => List.mem_takeWhile_imp hx
      have hlt : natFromDigits ds < 10 ^ ds.length := natFromDigits_lt ds hall
      have hpow : (0 : ℚ) < (10 : ℚ) ^ ds.length := by positivity
      constructor
      · positivity
      · rw [div_le_one hpow]
        calc (natFromDigits ds : ℚ) ≤ ((10 ^ ds.length : Nat) : ℚ) := by
              exact_mod_cast hlt.le
          _ = (10 : ℚ) ^ ds.length := by push_cast; ring
    case isFalse =>
      simp only [Option.some.injEq] at h
      subst h
      norm_num
  case _ =>
    simp only [Option.some.injEq] at h
    subst h
    norm_num
  case _ =>
    simp only [Option.some.injEq] at h
    subst h
    norm_num
  case _ =>
    simp only [Option.some.injEq] at h
    subst h
    norm_num
  case _ =>
    exact absurd h (by simp)

theorem searchScore_bounds (cs : List Char) (v : ℚ) (h : searchScore cs = some v) :
    0 ≤ v ∧ v ≤ 1 := by
  induction cs with
  | nil => simp [searchScore] at h
  | cons c rest ih =>
      rw [searchScore] at h
      revert h
      cases hm : matchValueAt (c :: rest) with
      | some w =>
          intro h
          simp only [Option.some.injEq] at h
          subst h
          exact matchValueAt_bounds _ _ hm
      | none => exact ih

theorem parse_score_bounds (r : String) : 0 ≤ parse_score r ∧ parse_score r ≤ 1 := by
  unfold parse_score
  cases hs : searchScore r.data with
  | none => norm_num
  | some v => simpa using searchScore_bounds r.data v hs

/-- C8 — every `_score_answer` outcome is a rational in `[0, 1]`; a
reply with no token matching the numeric pattern, and a failed service
call, both yield exactly `0.5`.  The model is a pure function, so the
fallback is deterministic and side-effect-free by construction. -/
theorem C8_score_answer_bounds (rs : Replies) (r : String) :
    (0 ≤ (score_answer rs).1 ∧ (score_answer rs).1 ≤ 1) ∧
    (searchScore r.data = none → (score_answer (some r :: rs)).1 = 1 / 2) ∧
    (score_answer (none :: rs)).1 = 1 / 2 := by
  refine ⟨?_, ?_, by simp [score_answer, takeReply]⟩
  · unfold score_answer takeReply
    match rs with
    | [] => norm_num
    | some t :: tl => exact parse_score_bounds t
    | none :: tl => norm_num
  · intro hnone
    simp [score_answer, takeReply, parse_score, hnone]

/-- Witness for C8 at the concrete unparseable reply `"great answer"`. -/
theorem C8_witness :
    (0 ≤ (score_answer [some "great answer"]).1 ∧ (score_answer [some "great answer"]).1 ≤ 1) ∧
    (score_answer [some "great answer"]).1 = 1 / 2 :=
  ⟨(C8_score_answer_bounds [some "great answer"] "x").1,
   (C8_score_answer_bounds [] "great answer").2.1 (by decide)⟩

/-! ## Persistence round-trip (claim C7) -/

/-- C7 — saving a session state and loading it back with no turns in
between restores the identical `(stage, subtopic_index,
explanation_step, concepts_learned, concept_scores)` tuple. -/
theorem C7_persistence_roundtrip (s : RevisionState) (now : Nat)
    (input : Option String) (subtopics : List Subtopic) :
    (load_session_state (save_session_state s now) input subtopics).stage = s.stage ∧
    (load_session_state (save_session_state s now) input subtopics).current_subtopic_index
      = s.current_subtopic_index ∧
    (load_session_state (save_session_state s now) input subtopics).current_message_step
      = s.current_message_step ∧
    (load_session_state (save_session_state s now) input subtopics).concepts_learned
      = s.concepts_learned ∧
    (load_session_state (save_session_state s now) input subtopics).concept_scores
      = s.concept_scores :=
  ⟨rfl, rfl, rfl, rfl, rfl⟩

/-! ## Zero sub-topics (claim C9) -/

/-- C9 counterexample — with zero sub-topics the start call returns the
no-content dictionary whose stage is the literal `"error"`, not
`"complete"` as the claim states; the state machine (and its
`intro → complete` route) is never entered and no session is created. -/
theorem C9_counterexample :
    startNoContent (start_revision_session "Empty Topic" "student_001" "sess-9" [] [])
        = some (true, "error") ∧ "error" ≠ "complete" := by
  constructor
  · rfl
  · decide

/-- C9 amended — for every topic with zero sub-topics the start call
returns immediately (not as an exception) with `is_session_complete =
true`, the explanatory no-content message, and stage `"error"`; it does
not run the graph, so no `intro → complete` transition and no persisted
session occur. -/
theorem C9_no_content (topic sid ssid : String) (rs : Replies) :
    start_revision_session topic sid ssid [] rs
      = .ok (.noContent "Sorry, no content found for this topic." true "error") := by
  simp [start_revision_session]

/-! ## Short replies while waiting are answers (claim C10) -/

/-- C10 — while `waiting_for_answer` is set, any user text of at most
five whitespace-separated words is never classified as a question (even
if it contains `?` or an interrogative keyword), so the turn is never
routed to the user-question interruption; with a pending question
present it is routed to answer evaluation. -/
theorem C10_short_reply_is_answer (s : RevisionState) (u : String)
    (hw : s.waiting_for_answer = true) (hlen : (pyWords u).length ≤ 5) :
    is_user_asking_question (some u) s = false ∧
    handleRoute (some u) s ≠ TurnRoute.userQuestion ∧
    (strTruthy s.current_question = true → handleRoute (some u) s = TurnRoute.answerEval) := by
  have hq : is_user_asking_question (some u) s = false := by
    unfold is_user_asking_question
    by_cases hu : u = ""
    · simp [hu]
    · simp [hu, hw, hlen]
  refine ⟨hq, ?_, ?_⟩
  · simp only [handleRoute, hq]
    split
    · simp_all
    · split <;> simp
  · intro ht
    simp [handleRoute, hq, hw, ht]

/-- A waiting-for-answer state used to witness C10. -/
def c10_state : RevisionState :=
  { session_id := "sess-10"
    student_id := "student_001"
    topic := "Cells"
    current_subtopic_index := 0
    current_message_step := 4
    subtopics := [⟨"Mitochondria", "the powerhouse"⟩]
    concepts_learned := []
    concept_scores := []
    total_interactions := 5
    user_input := none
    last_ai_response := some ""
    waiting_for_answer := true
    current_question := some "What is the powerhouse of the cell?"
    session_complete := false
    stage := "question"
    messages := [] }

/-- Witness for C10: the four-word reply `"what is it called?"`, which
contains both a question mark and interrogative keywords, is classified
as an answer while a question is pending, and routed to answer
evaluation. -/
theorem C10_witness :
    is_user_asking_question (some "what is it called?") c10_state = false ∧
    handleRoute (some "what is it called?") c10_state = TurnRoute.answerEval :=
  ⟨(C10_short_reply_is_answer c10_state "what is it called?" rfl (by decide)).1,
   (C10_short_reply_is_answer c10_state "what is it called?" rfl (by decide)).2.2 (by decide)⟩

/-! ## No end-intent handling (claim C1) -/

/-- Mid-explanation behaviour of `_continue_explanation`: with the
cursor in range and steps remaining, the step and interaction counters
advance and nothing else changes. -/
theorem continue_explanation_mid (s : RevisionState) (rs : Replies)
    (hidx : s.current_subtopic_index < s.subtopics.length)
    (hstep : s.current_message_step + 1 ≤ 3) :
    continue_explanation s rs =
      ({ s with current_message_step := s.current_message_step + 1,
                last_ai_response := some (generate_response rs).1,
                total_interactions := s.total_interactions + 1,
                messages := s.messages ++ [(generate_response rs).1] },
       (generate_response rs).2) := by
  simp only [continue_explanation]
  rw [if_neg (by omega), if_pos hstep]

/-- A mid-session saved state in stage `learning`, step 1 of concept 0. -/
def c1_record : SessionRecord :=
  { session_id := "sess-1"
    student_id := "student_001"
    topic := "Cells"
    current_subtopic_index := 0
    current_message_step := 1
    concepts_learned := []
    concept_scores := []
    total_interactions := 3
    waiting_for_answer := false
    current_question := none
    session_complete := false
    stage := "learning"
    updated_at := 0 }

def c1_subtopics : List Subtopic :=
  [⟨"Cell Structure", "cells have parts"⟩, ⟨"Cell Function", "cells do things"⟩]

/-- C1 counterexample — the turn `"I want to stop"` on a non-complete
`learning` session does not move the session to `complete`: there is no
end-intent check anywhere in `handle_user_input`, so the text is routed
as an ordinary continuation and the stage stays `learning` with
`is_complete` false (the claim requires `complete`/true). -/
theorem C1_counterexample :
    (okResult (handle_user_input "sess-1" (some c1_record) c1_subtopics
        (some "I want to stop") [some "next explanation fragment"])).map
        (fun r => (r.current_stage, r.is_session_complete, r.conversation_count))
      = some ("learning", false, 4) := by decide

/-- C1 amended — `handle_user_input` applies no end-intent check at all:
a turn whose user text is not classified as a question (as the stop
request `"I want to stop"` is not), received while not awaiting an
answer, in stage `learning` with explanation steps remaining, is
processed as an ordinary continuation — the stage stays `learning` and
the session does not complete, whatever intent the text expresses. -/
theorem C1_no_end_intent (id_ : String) (data : SessionRecord) (subt : List Subtopic)
    (q : String) (rs : Replies)
    (hq : is_user_asking_question (some q) (load_session_state data (some q) subt) = false)
    (hw : data.waiting_for_answer = false)
    (hst : data.stage = "learning")
    (hc : data.session_complete = false)
    (hidx : data.current_subtopic_index < subt.length)
    (hstep : data.current_message_step + 1 ≤ 3) :
    (okResult (handle_user_input id_ (some data) subt (some q) rs)).map
        (fun r => (r.current_stage, r.is_session_complete))
      = some ("learning", false) := by
  have hroute : handleRoute (some q) (load_session_state data (some q) subt)
      = .continueFlow := by
    unfold handleRoute
    rw [hq]
    simp [load_session_state, hw]
  have hcont := continue_explanation_mid (load_session_state data (some q) subt) rs hidx hstep
  simp only [handle_user_input, hroute]
  rw [hcont]
  rw [show (load_session_state data (some q) subt).stage = "learning" from hst]
  simp [okResult, mkResult, load_session_state, hc]

/-- Witness for C1's amended theorem at the concrete stop request. -/
theorem C1_witness :
    (okResult (handle_user_input "sess-1b" (some c1_record) c1_subtopics
        (some "I want to stop") [])).map
        (fun r => (r.current_stage, r.is_session_complete))
      = some ("learning", false) :=
  C1_no_end_intent "sess-1b" c1_record c1_subtopics "I want to stop" []
    (by decide) rfl rfl rfl (by decide) (by decide)

/-! ## Start runs the whole graph (claim C2) -/

def c2_subtopics : List Subtopic :=
  [⟨"Cell Structure", "cells have parts"⟩, ⟨"Cell Function", "cells do things"⟩]

/-- C2 (evidence for the code bug) — for the two-sub-topic topic the
claim requires `start_revision_session` to return stage `intro`,
interaction count 0 and a non-complete session; the compiled graph has
no interrupt, so `ainvoke` runs from `START` to `END` in the start call
itself: the result has stage `complete`, 10 interactions and
`is_complete` true (with the whole lesson consumed and nothing ever
awaiting the learner). -/
theorem C2_start_runs_whole_graph :
    (startResult (start_revision_session "Cells" "student_001" "sess-2" c2_subtopics [])).map
        (fun r => (r.current_stage, r.conversation_count, r.is_session_complete))
      = some ("complete", 10, true) := by decide

/-! ## Pending-question bookkeeping (claim C4) -/

/-- A state with a pending check question and an incoming short answer. -/
def c4_state : RevisionState :=
  { session_id := "sess-4"
    student_id := "student_001"
    topic := "Cells"
    current_subtopic_index := 0
    current_message_step := 4
    subtopics := [⟨"Mitochondria", "the powerhouse of the cell"⟩]
    concepts_learned := []
    concept_scores := []
    total_interactions := 5
    user_input := some "it makes energy"
    last_ai_response := some ""
    waiting_for_answer := true
    current_question := some "What is the powerhouse of the cell?"
    session_complete := false
    stage := "question"
    messages := [] }

/-- C4 counterexample — `_evaluate_answer` is a transition that sets
`waiting_for_answer` to false but does NOT clear `current_question` in
the same transition (it stays set until `_move_to_next_concept`),
falsifying the claim's second conjunct. -/
theorem C4_counterexample :
    (evalState (evaluate_answer c4_state [some "0.9"])).map
        (fun s => (s.waiting_for_answer, s.current_question))
      = some (false, some "What is the powerhouse of the cell?") := by decide

/-- C4 amended — `_evaluate_answer` (with an answer and a pending
question present and the cursor in range) clears `waiting_for_answer`
and moves to `feedback` while leaving `current_question` unchanged;
`current_question` is cleared only later, by `_move_to_next_concept`
(which does not touch `waiting_for_answer`). -/
theorem C4_evaluate_keeps_question (s : RevisionState) (rs : Replies)
    (hu : strTruthy s.user_input = true) (hq : strTruthy s.current_question = true)
    (hidx : s.current_subtopic_index < s.subtopics.length) :
    (evalState (evaluate_answer s rs)).map
        (fun t => (t.waiting_for_answer, t.current_question, t.stage))
      = some (false, s.current_question, "feedback")
    ∧ (move_to_next_concept s).current_question = none := by
  constructor
  · unfold evaluate_answer
    rw [if_neg (by simp [hu, hq])]
    cases hg : s.subtopics.get? s.current_subtopic_index with
    | none =>
        exact absurd (List.get?_eq_none.mp hg) (by omega)
    | some st => simp [evalState]
  · simp only [move_to_next_concept]
    split <;> rfl

/-- Witness for C4's amended theorem at the concrete pending-question
state. -/
theorem C4_witness :
    ((evalState (evaluate_answer c4_state [some "0.7"])).map
        (fun t => (t.waiting_for_answer, t.current_question, t.stage))
      = some (false, c4_state.current_question, "feedback"))
    ∧ (move_to_next_concept c4_state).current_question = none :=
  C4_evaluate_keeps_question c4_state [some "0.7"] (by decide) (by decide) (by decide)

/-! ## The user-question sub-mode resets the stage (claim C6) -/

/-- A saved session in stage `question`, awaiting an answer. -/
def c6_record : SessionRecord :=
  { session_id := "sess-6"
    student_id := "student_001"
    topic := "Cells"
    current_subtopic_index := 0
    current_message_step := 4
    concepts_learned := []
    concept_scores := []
    total_interactions := 5
    waiting_for_answer := true
    current_question := some "What is the powerhouse of the cell?"
    session_complete := false
    stage := "question"
    updated_at := 0 }

def c6_subtopics : List Subtopic := [⟨"Mitochondria", "the powerhouse of the cell"⟩]

/-- C6 counterexample — a long question asked while `stage = question`
does not return the session to `question`: `_handle_user_question`
unconditionally resets the stage to `learning`, so the interrupted stage
is lost (while `waiting_for_answer` and `current_question` stay set). -/
theorem C6_counterexample :
    (okResult (handle_user_input "sess-6" (some c6_record) c6_subtopics
        (some "can you explain what photosynthesis means in simple words")
        [some "Sure: plants turn light into sugar."])).map
        (fun r => r.current_stage)
      = some "learning" := by decide

/-- C6 amended — every turn routed to the user-question sub-mode ends
with stage `learning`, regardless of the stage that was interrupted. -/
theorem C6_question_returns_learning (id_ : String) (data : SessionRecord)
    (subt : List Subtopic) (q : String) (rs : Replies)
    (hq : is_user_asking_question (some q) (load_session_state data (some q) subt) = true) :
    (okResult (handle_user_input id_ (some data) subt (some q) rs)).map
        (fun r => r.current_stage) = some "learning" := by
  have hroute : handleRoute (some q) (load_session_state data (some q) subt)
      = .userQuestion := by
    unfold handleRoute
    rw [hq]
    simp
  simp only [handle_user_input, hroute]
  simp [handle_user_question, okResult, mkResult]

/-- Witness for C6's amended theorem at a concrete interrupting
question asked from stage `question`. -/
theorem C6_witness :
    (okResult (handle_user_input "sess-6b" (some c6_record) c6_subtopics
        (some "can you explain what photosynthesis means in simple words") [])).map
        (fun r => r.current_stage) = some "learning" :=
  C6_question_returns_learning "sess-6b" c6_record c6_subtopics
    "can you explain what photosynthesis means in simple words" [] (by decide)

/-! ## Completion is one-way but not terminal (claim C3) -/

/-- `_continue_explanation` never resets a completed session. -/
theorem continue_explanation_preserves_complete (s : RevisionState) (rs : Replies)
    (h : s.session_complete = true) :
    (continue_explanation s rs).1.session_complete = true := by
  simp only [continue_explanation]
  split
  · rfl
  · split
    · exact h
    · exact h

/-- `_ask_check_question` never resets a completed session. -/
theorem ask_check_question_preserves_complete (s : RevisionState) (rs : Replies)
    (h : s.session_complete = true) :
    (ask_check_question s rs).1.session_complete = true := by
  simp only [ask_check_question]
  split
  · rfl
  · exact h

/-- `_start_concept_explanation` never resets a completed session. -/
theorem start_concept_explanation_preserves_complete (s : RevisionState) (rs : Replies)
    (h : s.session_complete = true) :
    (start_concept_explanation s rs).1.session_complete = true := by
  simp only [start_concept_explanation]
  split
  · rfl
  · exact h

/-- `_move_to_next_concept` never resets a completed session. -/
theorem move_to_next_concept_preserves_complete (s : RevisionState)
    (h : s.session_complete = true) :
    (move_to_next_concept s).session_complete = true := by
  simp only [move_to_next_concept]
  split
  · rfl
  · exact h

/-- `_evaluate_answer` leaves `session_complete` untouched. -/
theorem evaluate_answer_preserves_complete (s : RevisionState) (rs : Replies)
    (p : RevisionState × Replies) (h : evaluate_answer s rs = .ok p) :
    p.1.session_complete = s.session_complete := by
  simp only [evaluate_answer] at h
  split at h
  · cases h
    rfl
  · split at h
    · simp at h
    · cases h
      rfl

/-- `_give_feedback` leaves `session_complete` untouched. -/
theorem give_feedback_preserves_complete (s : RevisionState) (rs : Replies)
    (p : RevisionState × Replies) (h : give_feedback s rs = .ok p) :
    p.1.session_complete = s.session_complete := by
  simp only [give_feedback] at h
  split at h
  · cases h
    rfl
  · split at h
    · simp at h
    · cases h
      dsimp only
      split <;> rfl

def c3_subtopics : List Subtopic :=
  [⟨"Mitochondria", "the powerhouse of the cell"⟩, ⟨"Nucleus", "holds the DNA"⟩]

/-- A completed session record (cursor past the last sub-topic). -/
def c3_record : SessionRecord :=
  { session_id := "sess-3"
    student_id := "student_001"
    topic := "Cells"
    current_subtopic_index := 2
    current_message_step := 0
    concepts_learned := ["Mitochondria"]
    concept_scores := [(4 : ℚ) / 5]
    total_interactions := 12
    waiting_for_answer := false
    current_question := none
    session_complete := true
    stage := "complete"
    updated_at := 0 }

/-- C3 counterexample — the `complete` stage is not terminal: a
question-classified turn on a completed session changes the stage from
`complete` to `learning` and increments `total_interactions` (while
`is_complete` stays true), contradicting the claim's "no further state
transitions" half. -/
theorem C3_counterexample :
    (okResult (handle_user_input "sess-3" (some c3_record) c3_subtopics
        (some "what is a cell and why is it important to life")
        [some "A cell is the basic unit of life."])).map
        (fun r => (r.current_stage, r.conversation_count, r.is_session_complete))
      = some ("learning", 13, true) := by decide

/-- C3 amended — `is_complete` is one-way: once a session is complete,
every successful later turn leaves `session_complete` true (no
operation ever resets it); but the `complete` stage is NOT terminal —
further turns can still change the stage and mutate counters, as the
counterexample shows. -/
theorem C3_complete_is_one_way (id_ : String) (data : SessionRecord) (subt : List Subtopic)
    (q : Option String) (rs : Replies) (res : TurnResult) (s' : RevisionState) (rem : Replies)
    (hc : data.session_complete = true)
    (h : handle_user_input id_ (some data) subt q rs = .ok (.ok res s' rem)) :
    s'.session_complete = true ∧ res.is_session_complete = true := by
  simp only [handle_user_input] at h
  split at h
  · -- user-question branch
    simp only [Except.ok.injEq, HandleOutcome.ok.injEq] at h
    obtain ⟨h1, h2, h3⟩ := h
    subst h1 h2
    exact ⟨hc, hc⟩
  · -- answer-evaluation branch
    split at h
    · simp at h
    case _ p1 heq1 =>
      have hp1 : p1.1.session_complete = true := by
        rw [evaluate_answer_preserves_complete _ _ _ heq1]
        exact hc
      split at h
      · simp at h
      case _ p2 heq2 =>
        have hp2 : p2.1.session_complete = true := by
          rw [give_feedback_preserves_complete _ _ _ heq2]
          exact hp1
        split at h
        · split at h
          · exact absurd (move_to_next_concept_preserves_complete p2.1 hp2) (by simp_all)
          · simp only [Except.ok.injEq, HandleOutcome.ok.injEq] at h
            obtain ⟨h1, h2, h3⟩ := h
            subst h1 h2
            have := move_to_next_concept_preserves_complete p2.1 hp2
            exact ⟨this, this⟩
        · simp only [Except.ok.injEq, HandleOutcome.ok.injEq] at h
          obtain ⟨h1, h2, h3⟩ := h
          subst h1 h2
          exact ⟨rfl, rfl⟩
  · -- continue branch
    split at h
    · split at h
      · simp only [Except.ok.injEq, HandleOutcome.ok.injEq] at h
        obtain ⟨h1, h2, h3⟩ := h
        subst h1 h2
        have hcont := continue_explanation_preserves_complete
          (load_session_state data q subt) rs hc
        have := ask_check_question_preserves_complete _
          (continue_explanation (load_session_state data q subt) rs).2 hcont
        exact ⟨this, this⟩
      · simp only [Except.ok.injEq, HandleOutcome.ok.injEq] at h
        obtain ⟨h1, h2, h3⟩ := h
        subst h1 h2
        have := continue_explanation_preserves_complete
          (load_session_state data q subt) rs hc
        exact ⟨this, this⟩
    · simp only [Except.ok.injEq, HandleOutcome.ok.injEq] at h
      obtain ⟨h1, h2, h3⟩ := h
      subst h1 h2
      have := continue_explanation_preserves_complete
        (load_session_state data q subt) rs hc
      exact ⟨this, this⟩

/-- The state a no-text turn on the completed `c3_record` ends in. -/
def c3w_final : RevisionState :=
  { session_id := "sess-3"
    student_id := "student_001"
    topic := "Cells"
    current_subtopic_index := 2
    current_message_step := 0
    subtopics := c3_subtopics
    concepts_learned := ["Mitochondria"]
    concept_scores := [(4 : ℚ) / 5]
    total_interactions := 12
    user_input := none
    last_ai_response := some ""
    waiting_for_answer := false
    current_question := none
    session_complete := true
    stage := "complete"
    messages := [] }

/-- Witness for C3's amended theorem: a turn with no user text on a
completed session keeps `session_complete` true. -/
theorem C3_witness :
    c3w_final.session_complete = true ∧ (mkResult "sess-3w" c3w_final).is_session_complete = true :=
  C3_complete_is_one_way "sess-3w" c3_record c3_subtopics none [] (mkResult "sess-3w" c3w_final)
    c3w_final [] rfl rfl

/-! ## The answer-evaluation turn (claim C5) -/

/-- `_evaluate_answer` cannot raise when the cursor is in range. -/
theorem evaluate_answer_ne_error (s : RevisionState) (rs : Replies) (e : String)
    (hst : s.subtopics.get? s.current_subtopic_index ≠ none) :
    evaluate_answer s rs ≠ .error e := by
  simp only [evaluate_answer]
  split
  · simp
  · split
    · simp_all
    · simp

/-- `_give_feedback` cannot raise when the cursor is in range. -/
theorem give_feedback_ne_error (s : RevisionState) (rs : Replies) (e : String)
    (hst : s.subtopics.get? s.current_subtopic_index ≠ none) :
    give_feedback s rs ≠ .error e := by
  simp only [give_feedback]
  split
  · simp
  · split
    · simp_all
    · simp

/-- Field effects of a successful `_evaluate_answer` with an answer and
a pending question: one score appended, stage `feedback`, everything
else untouched. -/
theorem evaluate_answer_fields (s : RevisionState) (rs : Replies) (p : RevisionState × Replies)
    (h : evaluate_answer s rs = .ok p)
    (hu : strTruthy s.user_input = true) (hq : strTruthy s.current_question = true) :
    p.1.concept_scores = s.concept_scores ++ [(score_answer rs).1] ∧
    p.1.concepts_learned = s.concepts_learned ∧
    p.1.current_subtopic_index = s.current_subtopic_index ∧
    p.1.subtopics = s.subtopics ∧
    p.1.stage = "feedback" := by
  simp only [evaluate_answer] at h
  rw [if_neg (by simp [hu, hq])] at h
  split at h
  · simp at h
  · cases h
    exact ⟨rfl, rfl, rfl, rfl, rfl⟩

/-- Field effects of a successful `_give_feedback`: the concept is
recorded as learned exactly when the last score reaches `0.6` and the
title is new; scores, cursor and stage untouched. -/
theorem give_feedback_fields (s : RevisionState) (rs : Replies) (p : RevisionState × Replies)
    (st : Subtopic) (sc : ℚ)
    (h : give_feedback s rs = .ok p)
    (hsc : s.concept_scores.getLast? = some sc)
    (hst : s.subtopics.get? s.current_subtopic_index = some st) :
    p.1.concept_scores = s.concept_scores ∧
    p.1.concepts_learned = (if sc ≥ 3 / 5 ∧ st.subtopic_title ∉ s.concepts_learned
        then s.concepts_learned ++ [st.subtopic_title] else s.concepts_learned) ∧
    p.1.current_subtopic_index = s.current_subtopic_index ∧
    p.1.subtopics = s.subtopics ∧
    p.1.stage = s.stage := by
  simp only [give_feedback, hsc, hst] at h
  cases h
  dsimp only
  split
  · exact ⟨rfl, rfl, rfl, rfl, rfl⟩
  · exact ⟨rfl, rfl, rfl, rfl, rfl⟩

/-- Field effects of `_move_to_next_concept`. -/
theorem move_to_next_concept_fields (s : RevisionState) :
    (move_to_next_concept s).concept_scores = s.concept_scores ∧
    (move_to_next_concept s).concepts_learned = s.concepts_learned ∧
    (move_to_next_concept s).current_subtopic_index = s.current_subtopic_index + 1 ∧
    (move_to_next_concept s).subtopics = s.subtopics ∧
    (move_to_next_concept s).stage
      = (if s.current_subtopic_index + 1 ≥ s.subtopics.length then "complete" else "learning") := by
  simp only [move_to_next_concept]
  split
  case isTrue hge => simp [hge]
  case isFalse hlt => simp [hlt]

/-- Field effects of `_start_concept_explanation` with the cursor in
range. -/
theorem start_concept_explanation_fields (s : RevisionState) (rs : Replies)
    (h : s.current_subtopic_index < s.subtopics.length) :
    (start_concept_explanation s rs).1.concept_scores = s.concept_scores ∧
    (start_concept_explanation s rs).1.concepts_learned = s.concepts_learned ∧
    (start_concept_explanation s rs).1.stage = "learning" := by
  simp only [start_concept_explanation]
  rw [if_neg (by omega)]
  exact ⟨rfl, rfl, rfl⟩

/-- Field effects of `_session_summary`. -/
theorem session_summary_fields (s : RevisionState) (rs : Replies) :
    (session_summary s rs).1.concept_scores = s.concept_scores ∧
    (session_summary s rs).1.concepts_learned = s.concepts_learned ∧
    (session_summary s rs).1.stage = "complete" :=
  ⟨rfl, rfl, rfl⟩

/-- General behaviour of an answer-evaluation turn: one score appended,
concept marked learned iff the score reaches `0.6` and is new, final
stage `learning` (next concept) or `complete` (last concept). -/
theorem answer_turn_spec (id_ : String) (data : SessionRecord) (subt : List Subtopic)
    (q : String) (rs : Replies) (st : Subtopic)
    (hq : is_user_asking_question (some q) (load_session_state data (some q) subt) = false)
    (hw : data.waiting_for_answer = true)
    (hcq : strTruthy data.current_question = true)
    (hune : q ≠ "")
    (hst : subt.get? data.current_subtopic_index = some st) :
    (okState (handle_user_input id_ (some data) subt (some q) rs)).map
        (fun t => (t.concept_scores, t.concepts_learned, t.stage))
      = some (data.concept_scores ++ [(score_answer rs).1],
              (if (score_answer rs).1 ≥ 3 / 5 ∧ st.subtopic_title ∉ data.concepts_learned
               then data.concepts_learned ++ [st.subtopic_title]
               else data.concepts_learned),
              (if data.current_subtopic_index < subt.length - 1 then "learning"
               else "complete")) := by
  have hlen : data.current_subtopic_index < subt.length := by
    rcases List.get?_eq_some.mp hst with ⟨hh, _⟩
    exact hh
  have hroute : handleRoute (some q) (load_session_state data (some q) subt)
      = .answerEval := by
    unfold handleRoute
    rw [hq]
    simp [load_session_state, hw, hcq]
  simp only [handle_user_input, hroute]
  split
  case _ e heq1 =>
    refine absurd heq1 (evaluate_answer_ne_error _ _ _ ?_)
    simp only [load_session_state]
    simp
    omega
  case _ p1 heq1 =>
    obtain ⟨e1, e2, e3, e4, e5⟩ :=
      evaluate_answer_fields _ _ _ heq1 (by simp [strTruthy, hune]) hcq
    simp only [load_session_state] at e1 e2 e3 e4
    split
    case _ e heq2 =>
      refine absurd heq2 (give_feedback_ne_error _ _ _ ?_)
      rw [e3, e4, hst]
      simp
    case _ p2 heq2 =>
      obtain ⟨f1, f2, f3, f4, f5⟩ :=
        give_feedback_fields _ _ _ st (score_answer rs).1 heq2
          (by rw [e1]; simp) (by rw [e3, e4]; exact hst)
      rw [e1] at f1
      rw [e2] at f2
      rw [e3] at f3
      rw [e4] at f4
      obtain ⟨m1, m2, m3, m4, m5⟩ := move_to_next_concept_fields p2.1
      rw [f1] at m1
      rw [f2] at m2
      rw [f3] at m3
      rw [f4] at m4
      rw [f3, f4] at m5
      split
      case isTrue hb =>
        rw [f3, f4] at hb
        have hstage : (move_to_next_concept p2.1).stage = "learning" := by
          rw [m5, if_neg (by omega)]
        have hidx2 : (move_to_next_concept p2.1).current_subtopic_index
            < (move_to_next_concept p2.1).subtopics.length := by
          rw [m3, m4]
          omega
        split
        · obtain ⟨g1, g2, g3⟩ :=
            start_concept_explanation_fields (move_to_next_concept p2.1) p2.2 hidx2
          rw [m1] at g1
          rw [m2] at g2
          simp only [okState, Option.map_some']
          rw [g1, g2, g3]
        · simp only [okState, Option.map_some']
          rw [m1, m2, hstage]
      case isFalse hb =>
        rw [f3, f4] at hb
        obtain ⟨g1, g2, g3⟩ :=
          session_summary_fields { p2.1 with session_complete := true } p2.2
        simp only [okState, Option.map_some']
        rw [g1, g2, g3]
        dsimp only
        rw [f1, f2, if_neg hb]

/-- A waiting-for-answer saved session used to witness C5. -/
def c5_record : SessionRecord :=
  { session_id := "sess-5"
    student_id := "student_001"
    topic := "Cells"
    current_subtopic_index := 0
    current_message_step := 4
    concepts_learned := []
    concept_scores := []
    total_interactions := 5
    waiting_for_answer := true
    current_question := some "What is the powerhouse of the cell?"
    session_complete := false
    stage := "question"
    updated_at := 0 }

def c5_subtopics : List Subtopic :=
  [⟨"Mitochondria", "the powerhouse of the cell"⟩, ⟨"Nucleus", "holds the DNA"⟩]

/-- The reply stream of the C5 scenario: the scoring call answers
`"0.8"`, then feedback and the next concept's first explanation. -/
def c5_replies : Replies := [some "0.8", some "Good job!", some "Next concept..."]

/-- The service's `"0.8"` reply parses to the score `4/5`. -/
theorem c5_score_value : (score_answer c5_replies).1 = 4 / 5 := by
  show parse_score "0.8" = 4 / 5
  have hd : "0.8".data = ['0', '.', '8'] := rfl
  have h8 : isAsciiDigit '8' = true := by decide
  have ht : Char.toNat '8' = 56 := by decide
  rw [parse_score, hd]
  simp only [searchScore, matchValueAt, h8, List.takeWhile, natFromDigits, List.foldl,
    Option.getD_some]
  norm_num [ht]

/-- C5 amended — a turn received while waiting for an answer (text
present, not classified as a question, pending question and cursor in
range) appends exactly one score, records the sub-topic title as
learned iff the score reaches `0.6` and the title is new, and passes
through `feedback` only transiently: the same turn immediately advances,
ending in stage `learning` (next concept started) or `complete` (last
concept summarised) — never in stage `feedback`. -/
theorem C5_answer_turn (id_ : String) (data : SessionRecord) (subt : List Subtopic)
    (q : String) (rs : Replies) (st : Subtopic)
    (hq : is_user_asking_question (some q) (load_session_state data (some q) subt) = false)
    (hw : data.waiting_for_answer = true)
    (hcq : strTruthy data.current_question = true)
    (hune : q ≠ "")
    (hst : subt.get? data.current_subtopic_index = some st) :
    (okState (handle_user_input id_ (some data) subt (some q) rs)).map
        (fun t => (t.concept_scores, t.concepts_learned, t.stage))
      = some (data.concept_scores ++ [(score_answer rs).1],
              (if (score_answer rs).1 ≥ 3 / 5 ∧ st.subtopic_title ∉ data.concepts_learned
               then data.concepts_learned ++ [st.subtopic_title]
               else data.concepts_learned),
              (if data.current_subtopic_index < subt.length - 1 then "learning"
               else "complete")) :=
  answer_turn_spec id_ data subt q rs st hq hw hcq hune hst

/-- C5 counterexample — the claim says the answer turn "moves the stage
to 'feedback'"; this turn does append exactly one score (`0.8`) and
record the concept as learned, but its resulting stage is `learning`
(the controller advances to the next sub-topic within the same turn),
not `feedback`. -/
theorem C5_counterexample :
    (okState (handle_user_input "sess-5" (some c5_record) c5_subtopics
        (some "powerhouse") c5_replies)).map
        (fun t => (t.concept_scores, t.concepts_learned, t.stage))
      = some ([(4 : ℚ) / 5], ["Mitochondria"], "learning") := by
  have h := answer_turn_spec "sess-5" c5_record c5_subtopics "powerhouse" c5_replies
    (Subtopic.mk "Mitochondria" "the powerhouse of the cell")
    (by decide) rfl (by decide) (by decide) (by decide)
  rw [h, c5_score_value]
  norm_num [c5_record, c5_subtopics]

/-- Witness for C5's amended theorem at the concrete answer turn. -/
theorem C5_witness :
    (okState (handle_user_input "sess-5b" (some c5_record) c5_subtopics
        (some "powerhouse") [some "0.8", some "Good job!", some "Next concept..."])).map
        (fun t => (t.concept_scores, t.concepts_learned, t.stage))
      = some (c5_record.concept_scores
                ++ [(score_answer [some "0.8", some "Good job!", some "Next concept..."]).1],
              (if (score_answer [some "0.8", some "Good job!", some "Next concept..."]).1 ≥ 3 / 5
                  ∧ (Subtopic.mk "Mitochondria" "the powerhouse of the cell").subtopic_title
                      ∉ c5_record.concepts_learned
               then c5_record.concepts_learned
                  ++ [(Subtopic.mk "Mitochondria" "the powerhouse of the cell").subtopic_title]
               else c5_record.concepts_learned),
              (if c5_record.current_subtopic_index < c5_subtopics.length - 1 then "learning"
               else "complete")) :=
  C5_answer_turn "sess-5b" c5_record c5_subtopics "powerhouse"
    [some "0.8", some "Good job!", some "Next concept..."]
    (Subtopic.mk "Mitochondria" "the powerhouse of the cell")
    (by decide) rfl (by decide) (by decide) (by decide)

end RevisionAgent
